import Mathlib

/-!
Shallow embedding of the brainbridge-backend service (Express + PostgreSQL).
The database tables (`users`, `connections`, `messages`, `blocks`,
`room_members`, `room_messages`) are modelled as lists of row structures, and
each HTTP route handler as a pure function from a database state (plus the
request parameters) to an HTTP status together with the updated state.
SERIAL columns are modelled via explicit next-id counters; `CURRENT_TIMESTAMP`
via a `now` field of the state.
-/

namespace BrainBridge

/-- HTTP statuses the routes under study return. -/
inductive HStatus where
  | ok200
  | badRequest400
  | forbidden403
  | notFound404
deriving DecidableEq, Repr

/-- Values stored in the `status` column of `connections`: the default is
`'pending'` (schema default) and the only update writes `'accepted'`. -/
inductive ConnStatus where
  | pending
  | accepted
deriving DecidableEq, Repr

/-- A row of the `connections` table. -/
structure ConnRow where
  id : Nat
  sender_id : Nat
  receiver_id : Nat
  status : ConnStatus
  created_at : Nat
deriving DecidableEq, Repr

/-- A row of the `users` table (the columns the friends query selects). -/
structure UserRow where
  id : Nat
  name : String
  email : String
  city : String
deriving DecidableEq, Repr

/-- A row of the `messages` table. -/
structure MsgRow where
  id : Nat
  sender_id : Nat
  receiver_id : Nat
  content : String
  created_at : Nat
deriving DecidableEq, Repr

/-- A row of the `blocks` table. -/
structure BlockRow where
  id : Nat
  blocker_id : Nat
  blocked_id : Nat
  created_at : Nat
deriving DecidableEq, Repr

/-- A row of the `room_members` table. -/
structure RoomMemberRow where
  id : Nat
  room_id : Nat
  user_id : Nat
deriving DecidableEq, Repr

/-- A row of the `room_messages` table. -/
structure RoomMsgRow where
  id : Nat
  room_id : Nat
  sender_id : Nat
  content : String
  created_at : Nat
deriving DecidableEq, Repr

/-- The persistent state: one list per table, next-value counters for the
SERIAL id columns, and the current timestamp. -/
structure DB where
  users : List UserRow
  connections : List ConnRow
  messages : List MsgRow
  blocks : List BlockRow
  roomMembers : List RoomMemberRow
  roomMessages : List RoomMsgRow
  nextConnId : Nat
  nextMsgId : Nat
  nextRoomMsgId : Nat
  now : Nat
deriving DecidableEq, Repr

/-- `POST /connect/:userId`: reject self-connection, then check for an
existing row with the same ordered (sender, receiver) pair
(`SELECT * FROM connections WHERE sender_id=$1 AND receiver_id=$2`); on
absence insert a row with the default status `'pending'`. -/
def sendRequest (db : DB) (senderId receiverId : Nat) : HStatus × DB :=
  if senderId = receiverId then
    (HStatus.badRequest400, db)
  else if 0 < (db.connections.filter
      (fun c => c.sender_id == senderId && c.receiver_id == receiverId)).length then
    (HStatus.badRequest400, db)
  else
    (HStatus.ok200,
      { db with
        connections := db.connections ++
          [{ id := db.nextConnId, sender_id := senderId, receiver_id := receiverId,
             status := ConnStatus.pending, created_at := db.now }],
        nextConnId := db.nextConnId + 1 })

/-- The row update performed by `UPDATE connections SET status='accepted'
WHERE id=$1`. -/
def acceptUpd (connectionId : Nat) (c : ConnRow) : ConnRow :=
  if c.id = connectionId then { c with status := ConnStatus.accepted } else c

/-- `PUT /connect/accept/:id`: `SELECT * FROM connections WHERE id=$1 AND
receiver_id=$2`; empty result means 403 "Not authorized"; otherwise run the
status update. -/
def acceptRequest (db : DB) (connectionId userId : Nat) : HStatus × DB :=
  if (db.connections.filter
      (fun c => c.id == connectionId && c.receiver_id == userId)).length = 0 then
    (HStatus.forbidden403, db)
  else
    (HStatus.ok200,
      { db with connections := db.connections.map (acceptUpd connectionId) })

/-- `DELETE /connect/reject/:id`: same authorization read as accept; on
success `DELETE FROM connections WHERE id=$1`. -/
def rejectRequest (db : DB) (connectionId userId : Nat) : HStatus × DB :=
  if (db.connections.filter
      (fun c => c.id == connectionId && c.receiver_id == userId)).length = 0 then
    (HStatus.forbidden403, db)
  else
    (HStatus.ok200,
      { db with connections := db.connections.filter (fun c => !(c.id == connectionId)) })

/-- The WHERE clause of the block check in `POST /message/:userId`:
`(blocker_id=$1 AND blocked_id=$2) OR (blocker_id=$2 AND blocked_id=$1)`. -/
def isBlockedRow (senderId receiverId : Nat) (b : BlockRow) : Bool :=
  (b.blocker_id == senderId && b.blocked_id == receiverId) ||
  (b.blocker_id == receiverId && b.blocked_id == senderId)

/-- `POST /message/:userId`: 403 when a block row exists in either direction,
otherwise insert the message unconditionally. -/
def sendMessage (db : DB) (senderId receiverId : Nat) (content : String) : HStatus × DB :=
  if 0 < (db.blocks.filter (isBlockedRow senderId receiverId)).length then
    (HStatus.forbidden403, db)
  else
    (HStatus.ok200,
      { db with
        messages := db.messages ++
          [{ id := db.nextMsgId, sender_id := senderId, receiver_id := receiverId,
             content := content, created_at := db.now }],
        nextMsgId := db.nextMsgId + 1 })

/-- The WHERE clause of the conversation query in `GET /chat/:userId`:
`(sender_id=$1 AND receiver_id=$2) OR (sender_id=$2 AND receiver_id=$1)`. -/
def betweenPair (userA userB : Nat) (m : MsgRow) : Bool :=
  (m.sender_id == userA && m.receiver_id == userB) ||
  (m.sender_id == userB && m.receiver_id == userA)

/-- Comparison used by `ORDER BY created_at ASC`. -/
def msgLe (m n : MsgRow) : Prop := m.created_at ≤ n.created_at

instance : DecidableRel msgLe :=
  fun m n => inferInstanceAs (Decidable (m.created_at ≤ n.created_at))

instance : IsTotal MsgRow msgLe := ⟨fun a b => Nat.le_total a.created_at b.created_at⟩

instance : IsTrans MsgRow msgLe := ⟨fun _ _ _ => Nat.le_trans⟩

/-- `GET /chat/:userId`: all messages between the pair, ordered by
`created_at` ascending; no pagination. -/
def listConversation (db : DB) (userA userB : Nat) : List MsgRow :=
  List.insertionSort msgLe (db.messages.filter (betweenPair userA userB))

/-- `GET /friends`: `connections` joined with `users` on
`(sender_id=$1 AND receiver_id=u.id) OR (receiver_id=$1 AND sender_id=u.id)`,
restricted to `status = 'accepted'`. -/
def listFriends (db : DB) (userId : Nat) : List UserRow :=
  (db.connections.filter (fun c => c.status == ConnStatus.accepted)).flatMap
    (fun c => db.users.filter (fun u =>
      (c.sender_id == userId && c.receiver_id == u.id) ||
      (c.receiver_id == userId && c.sender_id == u.id)))

/-- `POST /rooms/:roomId/message`: 403 unless a `room_members` row for
(roomId, userId) exists; otherwise insert into `room_messages`. -/
def postRoomMessage (db : DB) (roomId userId : Nat) (content : String) : HStatus × DB :=
  if (db.roomMembers.filter
      (fun rm => rm.room_id == roomId && rm.user_id == userId)).length = 0 then
    (HStatus.forbidden403, db)
  else
    (HStatus.ok200,
      { db with
        roomMessages := db.roomMessages ++
          [{ id := db.nextRoomMsgId, room_id := roomId, sender_id := userId,
             content := content, created_at := db.now }],
        nextRoomMsgId := db.nextRoomMsgId + 1 })

/-! Helper lemmas relating the row-count checks the handlers perform to
existential and universal statements over the table contents. -/

theorem filter_length_eq_zero_iff {α : Type} {p : α → Bool} {l : List α} :
    (l.filter p).length = 0 ↔ ∀ x ∈ l, ¬ p x := by
  induction l with
  | nil => simp
  | cons a t ih =>
    by_cases h : p a <;> simp [List.filter_cons, h, ih]

theorem filter_length_pos_iff {α : Type} {p : α → Bool} {l : List α} :
    0 < (l.filter p).length ↔ ∃ x ∈ l, p x := by
  induction l with
  | nil => simp
  | cons a t ih =>
    by_cases h : p a <;> simp [List.filter_cons, h, ih]

/-! ### C7 -/

/-- C7: for every identity `a`, `sendRequest(a, a)` fails with
InvalidRequest (HTTP 400) and inserts no connection row: the state is
returned unchanged. -/
theorem C7_self_request_rejected (db : DB) (a : Nat) :
    sendRequest db a a = (HStatus.badRequest400, db) := by
  simp [sendRequest]

/-! ### C4 -/

/-- C4: for every requestId and every acting user who is not the receiver of
the request identified by that id (including when no request with that id
exists), both `acceptRequest` and `rejectRequest` fail with Forbidden
(HTTP 403) and leave the state unchanged. -/
theorem C4_non_receiver_forbidden (db : DB) (rid uid : Nat)
    (h : ∀ c ∈ db.connections, c.id = rid → c.receiver_id ≠ uid) :
    acceptRequest db rid uid = (HStatus.forbidden403, db) ∧
    rejectRequest db rid uid = (HStatus.forbidden403, db) := by
  have hz : (db.connections.filter
      (fun c => c.id == rid && c.receiver_id == uid)).length = 0 := by
    rw [filter_length_eq_zero_iff]
    intro c hc
    simp only [Bool.and_eq_true, beq_iff_eq, not_and]
    exact h c hc
  constructor <;> simp [acceptRequest, rejectRequest, hz]

/-- Witness for C4 at a concrete state: one pending request with id 1 and
receiver 2; user 3 is not the receiver. -/
theorem C4_non_receiver_forbidden_witness :
    acceptRequest
        { users := [], connections :=
            [{ id := 1, sender_id := 1, receiver_id := 2,
               status := ConnStatus.pending, created_at := 0 }],
          messages := [], blocks := [], roomMembers := [], roomMessages := [],
          nextConnId := 2, nextMsgId := 1, nextRoomMsgId := 1, now := 0 } 1 3 =
      (HStatus.forbidden403,
        { users := [], connections :=
            [{ id := 1, sender_id := 1, receiver_id := 2,
               status := ConnStatus.pending, created_at := 0 }],
          messages := [], blocks := [], roomMembers := [], roomMessages := [],
          nextConnId := 2, nextMsgId := 1, nextRoomMsgId := 1, now := 0 }) :=
  (C4_non_receiver_forbidden _ 1 3 (by decide)).1

/-! ### C5 -/

/-- The state used to refute C5 as stated: an empty `connections` table. -/
def dbC5 : DB :=
  { users := [], connections := [], messages := [], blocks := [],
    roomMembers := [], roomMessages := [],
    nextConnId := 1, nextMsgId := 1, nextRoomMsgId := 1, now := 0 }

/-- C5 counterexample: with no connection request at all, `acceptRequest`
returns Forbidden (HTTP 403), not NotFound — the code does not distinguish
a missing request from an authorization failure. -/
theorem C5_accept_missing_counterexample :
    dbC5.connections = [] ∧
    (acceptRequest dbC5 1 5).1 = HStatus.forbidden403 ∧
    (acceptRequest dbC5 1 5).1 ≠ HStatus.notFound404 := by
  refine ⟨rfl, by decide, by decide⟩

/-- C5 amended: for every requestId for which no connection request exists,
`acceptRequest` fails with Forbidden (HTTP 403) — the same status as the
authorization failure, not a distinct NotFound — for every acting user, and
the state is unchanged. -/
theorem C5_accept_missing_forbidden (db : DB) (rid uid : Nat)
    (h : ∀ c ∈ db.connections, c.id ≠ rid) :
    acceptRequest db rid uid = (HStatus.forbidden403, db) := by
  have hz : (db.connections.filter
      (fun c => c.id == rid && c.receiver_id == uid)).length = 0 := by
    rw [filter_length_eq_zero_iff]
    intro c hc
    simp only [Bool.and_eq_true, beq_iff_eq, not_and]
    intro hid
    exact absurd hid (h c hc)
  simp [acceptRequest, hz]

/-- Witness for the amended C5 at a concrete state. -/
theorem C5_accept_missing_forbidden_witness :
    acceptRequest dbC5 1 5 = (HStatus.forbidden403, dbC5) :=
  C5_accept_missing_forbidden dbC5 1 5 (by decide)

/-! ### C1 -/

/-- C1: for every distinct pair (a,b), if a block row exists in either
direction then `sendMessage a b` and `sendMessage b a` both fail with
Forbidden (HTTP 403) and leave the state unchanged (no message row inserted);
if no block exists in either direction, the message is persisted
unconditionally (status 200 and the row appended). -/
theorem C1_block_gates_messaging (db : DB) (a b : Nat) (hab : a ≠ b) :
    ((∃ bl ∈ db.blocks,
        (bl.blocker_id = a ∧ bl.blocked_id = b) ∨
        (bl.blocker_id = b ∧ bl.blocked_id = a)) →
      ∀ content : String,
        sendMessage db a b content = (HStatus.forbidden403, db) ∧
        sendMessage db b a content = (HStatus.forbidden403, db)) ∧
    ((¬ ∃ bl ∈ db.blocks,
        (bl.blocker_id = a ∧ bl.blocked_id = b) ∨
        (bl.blocker_id = b ∧ bl.blocked_id = a)) →
      ∀ content : String,
        (sendMessage db a b content).1 = HStatus.ok200 ∧
        (sendMessage db a b content).2.messages = db.messages ++
          [{ id := db.nextMsgId, sender_id := a, receiver_id := b,
             content := content, created_at := db.now }]) := by
  have hiff : ∀ bl : BlockRow, isBlockedRow a b bl = true ↔
      ((bl.blocker_id = a ∧ bl.blocked_id = b) ∨
       (bl.blocker_id = b ∧ bl.blocked_id = a)) := by
    intro bl
    simp [isBlockedRow]
  have hsymm : ∀ bl : BlockRow, isBlockedRow b a bl = isBlockedRow a b bl := by
    intro bl
    simp only [isBlockedRow]
    exact Bool.or_comm _ _
  constructor
  · intro hex content
    have hpos : 0 < (db.blocks.filter (isBlockedRow a b)).length := by
      rw [filter_length_pos_iff]
      obtain ⟨bl, hbl, hdir⟩ := hex
      exact ⟨bl, hbl, (hiff bl).mpr hdir⟩
    have hpos' : 0 < (db.blocks.filter (isBlockedRow b a)).length := by
      have : db.blocks.filter (isBlockedRow b a) = db.blocks.filter (isBlockedRow a b) :=
        List.filter_congr (fun bl _ => hsymm bl)
      rw [this]
      exact hpos
    constructor <;> simp [sendMessage, hpos, hpos']
  · intro hnex content
    have hz : ¬ 0 < (db.blocks.filter (isBlockedRow a b)).length := by
      rw [filter_length_pos_iff]
      intro ⟨bl, hbl, hev⟩
      exact hnex ⟨bl, hbl, (hiff bl).mp hev⟩
    simp [sendMessage, hz]

/-- The state used to witness C1: user 1 has blocked user 2. -/
def dbC1 : DB :=
  { users := [], connections := [], messages := [],
    blocks := [{ id := 1, blocker_id := 1, blocked_id := 2, created_at := 0 }],
    roomMembers := [], roomMessages := [],
    nextConnId := 1, nextMsgId := 1, nextRoomMsgId := 1, now := 0 }

/-- Witness for C1: with a block row (blocker 1, blocked 2), messaging from 1
to 2 is rejected with 403 and the state is unchanged. -/
theorem C1_block_gates_messaging_witness :
    sendMessage dbC1 1 2 "hi" = (HStatus.forbidden403, dbC1) :=
  (((C1_block_gates_messaging dbC1 1 2 (by decide)).1
      ⟨{ id := 1, blocker_id := 1, blocked_id := 2, created_at := 0 },
        by decide, by decide⟩) "hi").1

/-! ### C2 -/

/-- The state used to refute C2 as stated: one pending request from 1 to 2. -/
def dbC2 : DB :=
  { users := [],
    connections := [{ id := 1, sender_id := 1, receiver_id := 2,
                      status := ConnStatus.pending, created_at := 0 }],
    messages := [], blocks := [], roomMembers := [], roomMessages := [],
    nextConnId := 2, nextMsgId := 1, nextRoomMsgId := 1, now := 0 }

/-- C2 counterexample: with an active pending request from 1 to 2,
`sendRequest 2 1` (the reverse direction) succeeds with HTTP 200 and inserts
a second row — the duplicate check only looks at the same ordered
(sender, receiver) pair, so the claimed per-unordered-pair uniqueness fails. -/
theorem C2_reverse_direction_counterexample :
    (∃ c ∈ dbC2.connections,
       c.status = ConnStatus.pending ∧ c.sender_id = 1 ∧ c.receiver_id = 2) ∧
    (sendRequest dbC2 2 1).1 = HStatus.ok200 ∧
    (sendRequest dbC2 2 1).2.connections.length = dbC2.connections.length + 1 := by
  refine ⟨⟨{ id := 1, sender_id := 1, receiver_id := 2,
             status := ConnStatus.pending, created_at := 0 }, by decide, by decide⟩,
          by decide, by decide⟩

/-- C2 amended: the duplicate check is direction-sensitive. If a connection
row with sender a and receiver b already exists (whatever its status),
`sendRequest a b` fails with Conflict (HTTP 400) and the state is unchanged;
but an existing a→b row does not gate the reverse call, so when a ≠ b and no
b→a row exists, `sendRequest b a` succeeds and inserts a new row — two active
requests can therefore coexist for one unordered pair. -/
theorem C2_duplicate_same_direction_conflict (db : DB) (a b : Nat)
    (h : ∃ c ∈ db.connections, c.sender_id = a ∧ c.receiver_id = b) :
    sendRequest db a b = (HStatus.badRequest400, db) ∧
    (a ≠ b → (∀ c ∈ db.connections, ¬ (c.sender_id = b ∧ c.receiver_id = a)) →
      (sendRequest db b a).1 = HStatus.ok200 ∧
      (sendRequest db b a).2.connections.length = db.connections.length + 1) := by
  constructor
  · by_cases hab : a = b
    · simp [sendRequest, hab]
    · have hpos : 0 < (db.connections.filter
          (fun c => c.sender_id == a && c.receiver_id == b)).length := by
        rw [filter_length_pos_iff]
        obtain ⟨c, hc, hs, hr⟩ := h
        exact ⟨c, hc, by simp [hs, hr]⟩
      simp [sendRequest, hab, hpos]
  · intro hab hnone
    have hz : ¬ 0 < (db.connections.filter
        (fun c => c.sender_id == b && c.receiver_id == a)).length := by
      rw [filter_length_pos_iff]
      intro ⟨c, hc, hev⟩
      apply hnone c hc
      simpa using hev
    have hba : ¬ b = a := fun hba => hab hba.symm
    constructor <;> simp [sendRequest, hba, hz]

/-- Witness for the amended C2 at the concrete state `dbC2`: the duplicate
call 1→2 is rejected, the reverse call 2→1 succeeds and inserts. -/
theorem C2_duplicate_same_direction_conflict_witness :
    sendRequest dbC2 1 2 = (HStatus.badRequest400, dbC2) ∧
    (sendRequest dbC2 2 1).1 = HStatus.ok200 ∧
    (sendRequest dbC2 2 1).2.connections.length = dbC2.connections.length + 1 := by
  have h := C2_duplicate_same_direction_conflict dbC2 1 2
    ⟨{ id := 1, sender_id := 1, receiver_id := 2,
       status := ConnStatus.pending, created_at := 0 }, by decide, by decide⟩
  exact ⟨h.1, h.2 (by decide) (by decide)⟩

/-! ### C3 -/

/-- The state used to refute C3 as stated: one accepted request, id 1,
from 1 to 2. -/
def dbC3 : DB :=
  { users := [],
    connections := [{ id := 1, sender_id := 1, receiver_id := 2,
                      status := ConnStatus.accepted, created_at := 0 }],
    messages := [], blocks := [], roomMembers := [], roomMessages := [],
    nextConnId := 2, nextMsgId := 1, nextRoomMsgId := 1, now := 0 }

/-- C3 counterexample: `rejectRequest` checks only that the caller is the
receiver, not the status, so the receiver (user 2) can delete an already
accepted request — a transition out of the accepted state. -/
theorem C3_reject_accepted_counterexample :
    (∃ c ∈ dbC3.connections, c.id = 1 ∧ c.status = ConnStatus.accepted) ∧
    (rejectRequest dbC3 1 2).1 = HStatus.ok200 ∧
    (rejectRequest dbC3 1 2).2.connections = [] := by
  refine ⟨⟨{ id := 1, sender_id := 1, receiver_id := 2,
             status := ConnStatus.accepted, created_at := 0 }, by decide, by decide⟩,
          by decide, by decide⟩

/-- C3 amended: the *status* of an accepted request never changes —
`sendRequest` leaves existing rows untouched and `acceptRequest` only ever
writes accepted — but the row itself is not immortal: `rejectRequest`
performs no status check, so it either leaves an accepted row in place
(still accepted) or, when called with that row's id (by its receiver),
deletes it outright. -/
theorem C3_accepted_status_terminal (db : DB) (c : ConnRow)
    (hc : c ∈ db.connections) (hacc : c.status = ConnStatus.accepted)
    (sid rcv cid aid rid uid : Nat) :
    c ∈ (sendRequest db sid rcv).2.connections ∧
    (∃ c' ∈ (acceptRequest db cid aid).2.connections,
       c'.id = c.id ∧ c'.status = ConnStatus.accepted) ∧
    ((∃ c' ∈ (rejectRequest db rid uid).2.connections,
        c'.id = c.id ∧ c'.status = ConnStatus.accepted) ∨ rid = c.id) := by
  refine ⟨?_, ?_, ?_⟩
  · unfold sendRequest
    split
    · exact hc
    · split
      · exact hc
      · simpa using Or.inl hc
  · unfold acceptRequest
    split
    · exact ⟨c, hc, rfl, hacc⟩
    · refine ⟨acceptUpd cid c, List.mem_map_of_mem (acceptUpd cid) hc, ?_, ?_⟩
      · unfold acceptUpd
        split <;> rfl
      · unfold acceptUpd
        split
        · rfl
        · exact hacc
  · unfold rejectRequest
    split
    · exact Or.inl ⟨c, hc, rfl, hacc⟩
    · by_cases hid : c.id = rid
      · exact Or.inr hid.symm
      · refine Or.inl ⟨c, ?_, rfl, hacc⟩
        simp only [List.mem_filter]
        exact ⟨hc, by simp [hid]⟩

/-- Witness for the amended C3 at the concrete state `dbC3`. -/
theorem C3_accepted_status_terminal_witness :
    ({ id := 1, sender_id := 1, receiver_id := 2,
       status := ConnStatus.accepted, created_at := 0 } : ConnRow) ∈
        (sendRequest dbC3 2 3).2.connections ∧
    (∃ c' ∈ (acceptRequest dbC3 1 2).2.connections,
       c'.id = 1 ∧ c'.status = ConnStatus.accepted) ∧
    ((∃ c' ∈ (rejectRequest dbC3 5 2).2.connections,
        c'.id = 1 ∧ c'.status = ConnStatus.accepted) ∨ (5 : Nat) = 1) :=
  C3_accepted_status_terminal dbC3
    { id := 1, sender_id := 1, receiver_id := 2,
      status := ConnStatus.accepted, created_at := 0 }
    (by decide) (by decide) 2 3 1 2 5 2

/-! ### C6 -/

/-- C6: `acceptRequest` is idempotent in effect for the receiver. After a
successful accept (the authorization read found a row with the given id and
receiver), re-running `acceptRequest` on the resulting state — where the
request is already accepted — silently succeeds with HTTP 200 (there is no
status check) and leaves the state exactly as after the single accept. -/
theorem C6_accept_idempotent (db : DB) (cid uid : Nat)
    (h : ∃ c ∈ db.connections, c.id = cid ∧ c.receiver_id = uid) :
    acceptRequest (acceptRequest db cid uid).2 cid uid =
      (HStatus.ok200, (acceptRequest db cid uid).2) := by
  obtain ⟨c, hc, hid, hrcv⟩ := h
  have hnz : ¬ (db.connections.filter
      (fun c => c.id == cid && c.receiver_id == uid)).length = 0 := by
    intro hz
    rw [filter_length_eq_zero_iff] at hz
    exact hz c hc (by simp [hid, hrcv])
  have hupd : ∀ x : ConnRow, acceptUpd cid (acceptUpd cid x) = acceptUpd cid x := by
    intro x
    unfold acceptUpd
    by_cases hx : x.id = cid <;> simp [hx]
  have hid' : (acceptUpd cid c).id = c.id := by
    unfold acceptUpd
    split <;> rfl
  have hrcv' : (acceptUpd cid c).receiver_id = c.receiver_id := by
    unfold acceptUpd
    split <;> rfl
  have hnz2 : ¬ ((db.connections.map (acceptUpd cid)).filter
      (fun c => c.id == cid && c.receiver_id == uid)).length = 0 := by
    intro hz
    rw [filter_length_eq_zero_iff] at hz
    exact hz (acceptUpd cid c) (List.mem_map_of_mem (acceptUpd cid) hc)
      (by simp [hid', hrcv', hid, hrcv])
  have hmm : List.map (acceptUpd cid) (List.map (acceptUpd cid) db.connections) =
      List.map (acceptUpd cid) db.connections := by
    rw [List.map_map]
    exact List.map_congr_left (fun x _ => hupd x)
  simp only [acceptRequest, if_neg hnz, if_neg hnz2, hmm]

/-- The state used to witness C6: a single pending request, id 1,
receiver 2. -/
def dbC6 : DB :=
  { users := [],
    connections := [{ id := 1, sender_id := 1, receiver_id := 2,
                      status := ConnStatus.pending, created_at := 0 }],
    messages := [], blocks := [], roomMembers := [], roomMessages := [],
    nextConnId := 2, nextMsgId := 1, nextRoomMsgId := 1, now := 0 }

/-- Witness for C6 at the concrete state `dbC6`. -/
theorem C6_accept_idempotent_witness :
    acceptRequest (acceptRequest dbC6 1 2).2 1 2 =
      (HStatus.ok200, (acceptRequest dbC6 1 2).2) :=
  C6_accept_idempotent dbC6 1 2
    ⟨{ id := 1, sender_id := 1, receiver_id := 2,
       status := ConnStatus.pending, created_at := 0 }, by decide, by decide⟩

/-! ### C8 -/

/-- C8: friendship is symmetric. For every accepted connection request
between identities a and b — whichever of the two sent it — and rows for a
and b in the users table (guaranteed in any state satisfying the foreign-key
constraint), `listFriends a` contains a user row with id b and
`listFriends b` contains a user row with id a. -/
theorem C8_friendship_symmetric (db : DB) (c : ConnRow)
    (hc : c ∈ db.connections) (hacc : c.status = ConnStatus.accepted)
    (a b : Nat)
    (hdir : (c.sender_id = a ∧ c.receiver_id = b) ∨
            (c.sender_id = b ∧ c.receiver_id = a))
    (ua ub : UserRow) (hua : ua ∈ db.users) (hub : ub ∈ db.users)
    (hida : ua.id = a) (hidb : ub.id = b) :
    (∃ u ∈ listFriends db a, u.id = b) ∧
    (∃ u ∈ listFriends db b, u.id = a) := by
  have hcf : c ∈ db.connections.filter (fun c => c.status == ConnStatus.accepted) := by
    rw [List.mem_filter]
    exact ⟨hc, by simp [hacc]⟩
  constructor
  · refine ⟨ub, ?_, hidb⟩
    rw [listFriends, List.mem_flatMap]
    refine ⟨c, hcf, ?_⟩
    rw [List.mem_filter]
    refine ⟨hub, ?_⟩
    rcases hdir with ⟨hs, hr⟩ | ⟨hs, hr⟩
    · simp [hs, hr, hidb]
    · simp [hs, hr, hidb]
  · refine ⟨ua, ?_, hida⟩
    rw [listFriends, List.mem_flatMap]
    refine ⟨c, hcf, ?_⟩
    rw [List.mem_filter]
    refine ⟨hua, ?_⟩
    rcases hdir with ⟨hs, hr⟩ | ⟨hs, hr⟩
    · simp [hs, hr, hida]
    · simp [hs, hr, hida]

/-- The state used to witness C8: users 1 (alice) and 2 (bob) with an
accepted request sent by 1 to 2. -/
def dbC8 : DB :=
  { users := [{ id := 1, name := "alice", email := "a@x.com", city := "X" },
              { id := 2, name := "bob", email := "b@x.com", city := "Y" }],
    connections := [{ id := 1, sender_id := 1, receiver_id := 2,
                      status := ConnStatus.accepted, created_at := 0 }],
    messages := [], blocks := [], roomMembers := [], roomMessages := [],
    nextConnId := 2, nextMsgId := 1, nextRoomMsgId := 1, now := 0 }

/-- Witness for C8 at the concrete state `dbC8`. -/
theorem C8_friendship_symmetric_witness :
    (∃ u ∈ listFriends dbC8 1, u.id = 2) ∧
    (∃ u ∈ listFriends dbC8 2, u.id = 1) :=
  C8_friendship_symmetric dbC8
    { id := 1, sender_id := 1, receiver_id := 2,
      status := ConnStatus.accepted, created_at := 0 }
    (by decide) (by decide) 1 2 (Or.inl ⟨rfl, rfl⟩)
    { id := 1, name := "alice", email := "a@x.com", city := "X" }
    { id := 2, name := "bob", email := "b@x.com", city := "Y" }
    (by simp [dbC8]) (by simp [dbC8]) rfl rfl

/-! ### C9 -/

/-- C9: for every pair (a,b), `listConversation a b` consists of exactly the
stored messages whose (sender, receiver) pair is (a,b) or (b,a) (it is a
permutation of that filter — no pagination or truncation), it is sorted
ascending by creation time, and it equals `listConversation b a`. -/
theorem C9_conversation_exact_sorted_symmetric (db : DB) (a b : Nat) :
    (listConversation db a b).Perm (db.messages.filter (betweenPair a b)) ∧
    List.Sorted msgLe (listConversation db a b) ∧
    listConversation db a b = listConversation db b a := by
  refine ⟨List.perm_insertionSort msgLe _, List.sorted_insertionSort msgLe _, ?_⟩
  have hsymm : ∀ m : MsgRow, betweenPair a b m = betweenPair b a m := by
    intro m
    simp only [betweenPair]
    exact Bool.or_comm _ _
  rw [listConversation, listConversation,
    List.filter_congr (fun m _ => hsymm m)]

/-! ### C10 -/

/-- C10: room messaging is gated on membership. For every room and user,
posting a message fails with HTTP 403 and leaves the state unchanged (no
`room_messages` row inserted) when no membership row exists, and succeeds
with the message appended when one does. -/
theorem C10_room_message_requires_membership (db : DB) (roomId userId : Nat)
    (content : String) :
    ((∀ rm ∈ db.roomMembers, ¬ (rm.room_id = roomId ∧ rm.user_id = userId)) →
      postRoomMessage db roomId userId content = (HStatus.forbidden403, db)) ∧
    ((∃ rm ∈ db.roomMembers, rm.room_id = roomId ∧ rm.user_id = userId) →
      (postRoomMessage db roomId userId content).1 = HStatus.ok200 ∧
      (postRoomMessage db roomId userId content).2.roomMessages =
        db.roomMessages ++
          [{ id := db.nextRoomMsgId, room_id := roomId, sender_id := userId,
             content := content, created_at := db.now }]) := by
  constructor
  · intro hnone
    have hz : (db.roomMembers.filter
        (fun rm => rm.room_id == roomId && rm.user_id == userId)).length = 0 := by
      rw [filter_length_eq_zero_iff]
      intro rm hrm
      have := hnone rm hrm
      simp only [Bool.and_eq_true, beq_iff_eq]
      intro ⟨h1, h2⟩
      exact this ⟨h1, h2⟩
    simp [postRoomMessage, hz]
  · intro hex
    have hnz : ¬ (db.roomMembers.filter
        (fun rm => rm.room_id == roomId && rm.user_id == userId)).length = 0 := by
      intro hz
      rw [filter_length_eq_zero_iff] at hz
      obtain ⟨rm, hrm, h1, h2⟩ := hex
      exact hz rm hrm (by simp [h1, h2])
    simp [postRoomMessage, hnz]

/-- The state used to witness C10: room 1 with member 1 only. -/
def dbC10 : DB :=
  { users := [], connections := [], messages := [], blocks := [],
    roomMembers := [{ id := 1, room_id := 1, user_id := 1 }],
    roomMessages := [],
    nextConnId := 1, nextMsgId := 1, nextRoomMsgId := 1, now := 0 }

/-- Witness for C10 at the concrete state `dbC10`: non-member 2 is rejected
with 403 and the state is unchanged; member 1 posts successfully. -/
theorem C10_room_message_requires_membership_witness :
    postRoomMessage dbC10 1 2 "hi" = (HStatus.forbidden403, dbC10) ∧
    (postRoomMessage dbC10 1 1 "hi").1 = HStatus.ok200 :=
  ⟨(C10_room_message_requires_membership dbC10 1 2 "hi").1 (by decide),
   ((C10_room_message_requires_membership dbC10 1 1 "hi").2
     ⟨{ id := 1, room_id := 1, user_id := 1 }, by decide, by decide⟩).1⟩

end BrainBridge
